/-
Formal verification of the Clawd-router routing-and-fallback proxy engine.

Shallow embedding of the TypeScript sources:
  src/models.ts            — model catalog, aliases, context-window lookup
  src/router/selector.ts   — cost estimator (calculateModelCost)
  src/router/ai-router.ts  — routing oracle client, turn cache, cache key
  src/proxy.ts             — prompt extraction, API-key gate, body parsing,
                             fallback-chain composition, retry-with-fallback loop

Machine numbers are modelled as ℚ (prices, token estimates) and Nat/Int
(HTTP statuses, timestamps).  Network effects (fetch, sha256, JSON.stringify)
are passed in as explicit function parameters, so every definition is a pure,
executable Lean function.
-/
import Mathlib

namespace ClawdRouter

/-! ## Model catalog (src/models.ts) -/

/-- One entry of `OPENROUTER_MODELS` (src/models.ts).  The optional
capability flags (`reasoning`, `vision`, `agentic`) and `version` are not
consumed by any verified component and are omitted. -/
structure OpenRouterModel where
  id : String
  name : String
  inputPrice : ℚ
  outputPrice : ℚ
  contextWindow : Nat
  maxOutput : Nat
deriving DecidableEq, Repr

/-- `OPENROUTER_MODELS` from src/models.ts, in source order.
Prices are USD per 1M tokens. -/
def OPENROUTER_MODELS : List OpenRouterModel := [
  ⟨"auto", "Auto (Smart Router - Balanced)", 0, 0, 1050000, 128000⟩,
  ⟨"eco", "Eco (Smart Router - Cost Optimized)", 0, 0, 1050000, 128000⟩,
  ⟨"google/gemini-2.5-flash-lite-preview", "Gemini 2.5 Flash Lite Preview", 0.1, 0.4, 1000000, 65536⟩,
  ⟨"google/gemini-2.5-flash", "Gemini 2.5 Flash", 0.3, 2.5, 1000000, 65536⟩,
  ⟨"google/gemini-2.5-pro", "Gemini 2.5 Pro", 1.25, 10.0, 1050000, 65536⟩,
  ⟨"anthropic/claude-sonnet-4-5", "Claude Sonnet 4.5", 3.0, 15.0, 200000, 64000⟩,
  ⟨"anthropic/claude-opus-4-5", "Claude Opus 4.5", 15.0, 75.0, 200000, 32000⟩,
  ⟨"anthropic/claude-haiku-4-5", "Claude Haiku 4.5", 1.0, 5.0, 200000, 8192⟩,
  ⟨"openai/gpt-4o", "GPT-4o", 2.5, 10.0, 128000, 16384⟩,
  ⟨"openai/gpt-4o-mini", "GPT-4o Mini", 0.15, 0.6, 128000, 16384⟩,
  ⟨"openai/o3-mini", "o3-mini", 1.1, 4.4, 128000, 65536⟩,
  ⟨"deepseek/deepseek-chat", "DeepSeek Chat", 0.28, 0.28, 128000, 8192⟩,
  ⟨"deepseek/deepseek-r1", "DeepSeek R1", 0.55, 2.19, 128000, 8192⟩,
  ⟨"moonshotai/kimi-k2.5", "Kimi K2.5", 0.6, 3.0, 262144, 8192⟩,
  ⟨"x-ai/grok-code-fast-1", "Grok Code Fast", 0.2, 1.5, 131072, 16384⟩,
  ⟨"x-ai/grok-4.1-fast-non-reasoning", "Grok 4.1 Fast", 0.2, 0.5, 131072, 16384⟩,
  ⟨"x-ai/grok-4.1-fast-reasoning", "Grok 4.1 Fast Reasoning", 0.2, 0.5, 131072, 16384⟩,
  ⟨"x-ai/grok-4-0709", "Grok 4", 0.2, 1.5, 131072, 16384⟩,
  ⟨"x-ai/grok-3", "Grok 3", 3.0, 15.0, 131072, 16384⟩,
  ⟨"x-ai/grok-3-mini", "Grok 3 Mini", 0.3, 0.5, 131072, 16384⟩,
  ⟨"minimax/minimax-m2.5", "MiniMax M2.5", 0.3, 1.2, 204800, 16384⟩]

/-! ### JS string primitives

The JS string operations the sources use (`trim`, `toLowerCase`,
`split("\n")[0]`, `replace(pat, "")`) are modelled by structurally
recursive functions over the character list, so that every definition
evaluates inside the kernel. -/

/-- JS `String.prototype.trim`: strip leading and trailing whitespace. -/
def jsTrim (s : String) : String :=
  ⟨((s.data.dropWhile Char.isWhitespace).reverse.dropWhile Char.isWhitespace).reverse⟩

/-- JS `String.prototype.toLowerCase` (ASCII case fold). -/
def jsToLower (s : String) : String := ⟨s.data.map Char.toLower⟩

/-- `s.split("\n")[0]`: the prefix of `s` before its first newline. -/
def firstLineOf (s : String) : String := ⟨s.data.takeWhile (fun c => c ≠ '\n')⟩

/-- Character-list core of `jsReplaceFirst`. -/
def replaceFirstChars (pat repl : List Char) : List Char → List Char
  | [] => []
  | c :: rest =>
    if pat.isPrefixOf (c :: rest) then repl ++ (c :: rest).drop pat.length
    else c :: replaceFirstChars pat repl rest

/-- JS `String.prototype.replace` with a string pattern: replace only the
first occurrence of the pattern. -/
def jsReplaceFirst (s pat repl : String) : String :=
  ⟨replaceFirstChars pat.data repl.data s.data⟩

/-- Association-list lookup with decidable string keys; used to model both
JS `Map.get` and object-key lookup throughout the embedding. -/
def lookupEntry {α : Type} : List (String × α) → String → Option α
  | [], _ => none
  | (k, v) :: rest, key => if k = key then some v else lookupEntry rest key

/-- `getModelContextWindow` from src/models.ts: strip the first
`clawd-router/` occurrence, then look the id up in the catalog. -/
def getModelContextWindow (modelId : String) : Option Nat :=
  (OPENROUTER_MODELS.find? (fun m => m.id = jsReplaceFirst modelId "clawd-router/" "")).map
    (·.contextWindow)

/-! ## Cost estimator (src/router/selector.ts) -/

/-- `ModelPricing` from src/router/selector.ts: USD per 1M tokens. -/
structure ModelPricing where
  inputPrice : ℚ
  outputPrice : ℚ
deriving Repr

/-- `BASELINE_MODEL_ID` from src/router/selector.ts. -/
def BASELINE_MODEL_ID : String := "anthropic/claude-opus-4-5"

/-- Result record of `calculateModelCost`. -/
structure CostResult where
  costEstimate : ℚ
  baselineCost : ℚ
  savings : ℚ
deriving Repr

/-- `calculateModelCost` from src/router/selector.ts.  Missing pricing
entries (or an unknown model) default both prices to 0; savings is forced
to 0 for the "premium" profile, else `max 0 ((baseline - estimate)/baseline)`
when the baseline is positive, else 0. -/
def calculateModelCost (model : String) (modelPricing : List (String × ModelPricing))
    (estimatedInputTokens maxOutputTokens : ℚ) (routingProfile : Option String) :
    CostResult :=
  let pricing := lookupEntry modelPricing model
  let inputPrice := (pricing.map (·.inputPrice)).getD 0
  let outputPrice := (pricing.map (·.outputPrice)).getD 0
  let inputCost := estimatedInputTokens / 1000000 * inputPrice
  let outputCost := maxOutputTokens / 1000000 * outputPrice
  let costEstimate := inputCost + outputCost
  let opusPricing := lookupEntry modelPricing BASELINE_MODEL_ID
  let opusInputPrice := (opusPricing.map (·.inputPrice)).getD 0
  let opusOutputPrice := (opusPricing.map (·.outputPrice)).getD 0
  let baselineInput := estimatedInputTokens / 1000000 * opusInputPrice
  let baselineOutput := maxOutputTokens / 1000000 * opusOutputPrice
  let baselineCost := baselineInput + baselineOutput
  let savings :=
    if routingProfile = some "premium" then 0
    else if 0 < baselineCost then max 0 ((baselineCost - costEstimate) / baselineCost)
    else 0
  ⟨costEstimate, baselineCost, savings⟩

/-- `buildModelPricing` from src/proxy.ts: pricing map over the catalog. -/
def buildModelPricing : List (String × ModelPricing) :=
  OPENROUTER_MODELS.map (fun m => (m.id, ⟨m.inputPrice, m.outputPrice⟩))

/-! ## Messages (dynamic request payloads)

The TypeScript sources treat message payloads as `unknown` and probe them
dynamically.  The embedding uses a tagged union: message content is either a
plain string, a JS array of parts, or some other value (which
`extractContent` degrades to `""`).  A part is either an object whose `type`
field is `"text"` (carrying the JS string form of its `text` field, absent
when the field is nullish) or any other value carrying its JS string form
(e.g. `"[object Object]"` for a plain object). -/

inductive PartVal where
  | textPart (text : Option String)
  | otherPart (asString : String)
deriving DecidableEq, Repr

inductive ContentVal where
  | str (s : String)
  | arr (parts : List PartVal)
  | other
deriving DecidableEq, Repr

structure Message where
  role : Option String
  content : ContentVal
deriving DecidableEq, Repr

/-! ## Routing oracle client and turn cache (src/router/ai-router.ts) -/

/-- `TurnCacheEntry` from src/router/types.ts. -/
structure TurnCacheEntry where
  modelId : String
  expiresAt : Int
deriving DecidableEq, Repr

/-- The turn cache: a JS `Map<string, TurnCacheEntry>` modelled as an
association list with overwriting insert. -/
abbrev Cache := List (String × TurnCacheEntry)

def cacheGet (c : Cache) (key : String) : Option TurnCacheEntry :=
  lookupEntry c key

def cacheSet (c : Cache) (key : String) (v : TurnCacheEntry) : Cache :=
  if c.any (fun p => p.1 = key) then
    c.map (fun p => if p.1 = key then (key, v) else p)
  else c ++ [(key, v)]

/-- `AIRoutingConfig` from src/router/types.ts (temperature is not consumed
by any verified property and is omitted). -/
structure AIRoutingConfig where
  model : String
  maxTokens : Nat
  cacheTtlMs : Int
  promptTruncationChars : Nat
deriving Repr

/-- The index of the last message whose `role` field is exactly `"user"`
(the backward scan in `computeCacheKey`, src/router/ai-router.ts). -/
def lastUserIdx : List Message → Option Nat
  | [] => none
  | m :: rest =>
    match lastUserIdx rest with
    | some i => some (i + 1)
    | none => if m.role = some "user" then some 0 else none

/-- The conversation prefix that `computeCacheKey` serializes and hashes:
`messages.slice(0, lastUserIdx + 1)` when a user message exists, else the
whole list. -/
def computeCacheKeyInput (messages : List Message) : List Message :=
  match lastUserIdx messages with
  | some i => messages.take (i + 1)
  | none => messages

/-- `computeCacheKey` from src/router/ai-router.ts.  The composite
`sha256hex ∘ JSON.stringify` is modelled as an abstract function `hash`
on the sliced message list. -/
def computeCacheKey (hash : List Message → String) (messages : List Message) : String :=
  hash (computeCacheKeyInput messages)

/-- `RoutingError` from src/router/ai-router.ts (carries its message). -/
structure RoutingError where
  message : String
deriving DecidableEq, Repr

/-- An upstream HTTP interaction outcome for the routing-agent call:
either a network-level failure (the `fetch` throw), or a response carrying
its status, its raw body text, and the `choices[0].message.content` value
its JSON decoding yields (absent when nullish). -/
inductive OracleResponse where
  | netErr (msg : String)
  | resp (status : Nat) (bodyText : String) (content : Option String)
deriving DecidableEq, Repr

/-- The `while (JSON.stringify(routingMessages).length > promptTruncationChars)
routingMessages.shift()` loop, with the serialized length abstracted as
`serLen`.  (When the list is empty and still over the limit the JS loop does
not terminate; the model returns the empty list.) -/
def truncateMessages (serLen : List Message → Nat) (limit : Nat) :
    List Message → List Message
  | [] => []
  | m :: rest =>
    if serLen (m :: rest) ≤ limit then m :: rest
    else truncateMessages serLen limit rest

/-- First line of the oracle reply per the source:
`content.trim().split("\n")[0].trim()`. -/
def firstLineTrim (s : String) : String :=
  jsTrim (firstLineOf (jsTrim s))

/-- The catalog-membership validation of the oracle reply:
`OPENROUTER_MODELS.some((m) => m.id === rawValue && m.id !== "auto")`. -/
def isValidModelId (rawValue : String) : Bool :=
  OPENROUTER_MODELS.any (fun m => m.id = rawValue ∧ m.id ≠ "auto")

instance : DecidableEq (Except RoutingError String) := fun
  | .ok a, .ok b => decidable_of_iff (a = b) (by simp)
  | .ok _, .error _ => .isFalse (by simp)
  | .error _, .ok _ => .isFalse (by simp)
  | .error a, .error b => decidable_of_iff (a = b) (by simp)

/-- Result of one `routeWithAI` call: the returned/thrown value, the turn
cache after the call, and whether the oracle (the outbound fetch) was
invoked. -/
structure RouteOutcome where
  result : Except RoutingError String
  cache : Cache
  oracleCalled : Bool
deriving DecidableEq, Repr

/-- The cache-miss path of `routeWithAI`: truncate the conversation, call
the oracle, validate the returned identifier, and cache it on success. -/
def routeWithAIOracle (cacheKey : String) (serLen : List Message → Nat)
    (messages : List Message) (cache : Cache) (now : Int)
    (oracle : List Message → OracleResponse) (config : AIRoutingConfig) :
    RouteOutcome :=
  let routingMessages := truncateMessages serLen config.promptTruncationChars messages
  match oracle routingMessages with
  | .netErr msg =>
    ⟨.error ⟨"Routing agent call failed: " ++ msg⟩, cache, true⟩
  | .resp status bodyText content =>
    if 200 ≤ status ∧ status ≤ 299 then
      let rawValue := firstLineTrim (content.getD "")
      if isValidModelId rawValue then
        ⟨.ok rawValue, cacheSet cache cacheKey ⟨rawValue, now + config.cacheTtlMs⟩, true⟩
      else
        ⟨.error ⟨"Routing agent returned unknown model: \"" ++ rawValue ++ "\""⟩,
          cache, true⟩
    else
      ⟨.error ⟨"Routing agent call failed: HTTP " ++ toString status ++ " — " ++ bodyText⟩,
        cache, true⟩

/-- `routeWithAI` from src/router/ai-router.ts.  `hash` abstracts
`sha256hex ∘ JSON.stringify` (cache key), `serLen` abstracts
`JSON.stringify(·).length` (truncation), and `oracle` abstracts the
outbound fetch: it maps the truncated conversation (to which the routing
system prompt is prepended, see `routingModelLines`) to the upstream
response.  `now` is the value of `Date.now()`. -/
def routeWithAI (hash : List Message → String) (serLen : List Message → Nat)
    (messages : List Message) (cache : Cache) (now : Int)
    (oracle : List Message → OracleResponse) (config : AIRoutingConfig) :
    RouteOutcome :=
  let cacheKey := computeCacheKey hash messages
  match cacheGet cache cacheKey with
  | some entry =>
    if now < entry.expiresAt then ⟨.ok entry.modelId, cache, false⟩
    else routeWithAIOracle cacheKey serLen messages cache now oracle config
  | none => routeWithAIOracle cacheKey serLen messages cache now oracle config

/-! ## Routing system prompt (src/router/ai-router.ts) -/

/-- `CAPABILITY_DESCRIPTIONS` from src/router/ai-router.ts. -/
def CAPABILITY_DESCRIPTIONS : List (String × String) := [
  ("google/gemini-2.5-flash-lite",
    "Ultra-cheap and fast. Best for simple questions, greetings, translations, factual lookups."),
  ("google/gemini-2.5-flash",
    "Balanced speed and capability. Best for general tasks, summaries, moderate coding, Q&A."),
  ("google/gemini-2.5-pro",
    "High capability with reasoning. Best for complex analysis, hard coding problems, architecture design."),
  ("anthropic/claude-sonnet-4-6",
    "Best all-around for OpenClaw. Excellent reasoning, coding, tool use. Recommended daily driver."),
  ("anthropic/claude-opus-4-6",
    "Most capable Anthropic model. Best for hardest agent tasks, long-context coding, deep reasoning."),
  ("openai/gpt-5.2",
    "OpenAI frontier model with adaptive reasoning. Best for math, coding, tool calling, vision."),
  ("openai/gpt-5-mini",
    "Cheap and fast OpenAI. Best for simple tasks, quick lookups, light coding."),
  ("openai/o4-mini",
    "OpenAI reasoning model. Best for math, logic, formal proofs, algorithmic problems."),
  ("deepseek/deepseek-v3.2",
    "Very cheap and capable. Best for coding and general tasks on a tight budget."),
  ("deepseek/deepseek-v3.2-speciale",
    "DeepSeek reasoning variant. Best for math, logic, agentic tasks on a budget."),
  ("deepseek/deepseek-r1",
    "DeepSeek reasoning model. Best for math, logic, and reasoning tasks on a budget."),
  ("moonshotai/kimi-k2.5",
    "Top free-tier choice. Multimodal, strong agentic tool use, visual coding. Close to Claude Sonnet quality."),
  ("minimax/minimax-m2.5",
    "SOTA coding and agents. Best for software engineering, tool use, long agent sessions. ~$1/hr.")]

/-- One model line of `ROUTING_SYSTEM_PROMPT`: the source renders
`- ${id} — ${desc} — $${inputPrice.toFixed(2)}/$${outputPrice.toFixed(2)} per 1M tokens (input/output)`;
the embedding keeps the line's constituents (id, description, input price,
output price) structurally. -/
structure RoutingLine where
  id : String
  desc : String
  inputPrice : ℚ
  outputPrice : ℚ
deriving Repr

/-- The model enumeration built by the IIFE for `ROUTING_SYSTEM_PROMPT`:
iterate `OPENROUTER_MODELS` in catalog order, skip only the id `"auto"`,
and emit each remaining model with its capability description (defaulting
to "General purpose.") and per-token cost. -/
def routingModelLines : List RoutingLine :=
  (OPENROUTER_MODELS.filter (fun m => m.id ≠ "auto")).map
    (fun m =>
      ⟨m.id, (lookupEntry CAPABILITY_DESCRIPTIONS m.id).getD "General purpose.",
        m.inputPrice, m.outputPrice⟩)

/-! ## Prompt extraction (src/proxy.ts) -/

/-- `extractContent` from src/proxy.ts: a plain string is returned as-is;
a non-empty array yields its *first* element — the JS string form of its
`text` field when that element is a `type: "text"` object, otherwise the
JS string form of the element itself; everything else yields `""`. -/
def extractContent : ContentVal → String
  | .str s => s
  | .arr [] => ""
  | .arr (p :: _) =>
    match p with
    | .textPart t => t.getD ""
    | .otherPart s => s
  | .other => ""

/-- The system-prompt accumulation loop of `extractPrompts`
(src/proxy.ts): for each `system`-role message (role lowercased,
defaulted to `""`), the accumulator becomes
`(acc ? acc + "\n" + content : content).trim() || undefined`. -/
def extractSystemAcc (acc : Option String) : List Message → Option String
  | [] => acc
  | m :: rest =>
    let role := jsToLower (m.role.getD "")
    let content := extractContent m.content
    let acc' :=
      if role = "system" then
        let s := jsTrim (match acc with
          | some sp => sp ++ "\n" ++ content
          | none => content)
        if s = "" then none else some s
      else acc
    extractSystemAcc acc' rest

/-- The backward scan for the last `user`-role message in `extractPrompts`
(role lowercased, defaulted to `""`). -/
def lastUserMsg : List Message → Option Message
  | [] => none
  | m :: rest =>
    match lastUserMsg rest with
    | some r => some r
    | none => if jsToLower (m.role.getD "") = "user" then some m else none

/-- Result record of `extractPrompts`. -/
structure PromptExtracted where
  prompt : String
  systemPrompt : Option String
deriving DecidableEq, Repr

/-- `extractPrompts` from src/proxy.ts. -/
def extractPrompts (messages : List Message) : PromptExtracted :=
  let prompt :=
    match lastUserMsg messages with
    | some m => jsTrim (extractContent m.content)
    | none => ""
  ⟨prompt, extractSystemAcc none messages⟩

/-! ## API-key gate (src/proxy.ts, startProxy) -/

/-- The `{error: {message, type}}` envelope. -/
structure ErrorEnvelope where
  message : String
  type : String
deriving DecidableEq, Repr

/-- Outcome of the `/v1/chat/completions` credential check in `startProxy`. -/
inductive GateResult where
  | reject (status : Nat) (envelope : ErrorEnvelope)
  | forward (apiKey : String)
deriving DecidableEq, Repr

/-- The credential gate for `POST /v1/chat/completions` in `startProxy`
(src/proxy.ts): `(process.env.OPENROUTER_API_KEY ?? options.openRouterApiKey
?? "").trim()`; an empty result is rejected with 400/`invalid_request` and
the handler (hence the upstream) is never reached. -/
def chatCompletionsGate (envKey optKey : Option String) : GateResult :=
  let apiKey := jsTrim (envKey.getD (optKey.getD ""))
  if apiKey = "" then
    .reject 400 ⟨"OpenRouter API key required. Set OPENROUTER_API_KEY.", "invalid_request"⟩
  else .forward apiKey

/-! ## Body parsing and validation (src/proxy.ts, handleChatCompletions) -/

/-- The `messages` field of a parsed request body as the handler probes it:
absent, present but not a JS array, or an array of messages. -/
inductive MessagesVal where
  | absent
  | nonArray
  | list (msgs : List Message)
deriving DecidableEq, Repr

/-- The slice of a parsed JSON body that the handler's validation phase
consumes. -/
structure ParsedBody where
  messages : MessagesVal
deriving DecidableEq, Repr

/-- `readJsonBody` from src/proxy.ts: an empty or whitespace-only body
yields `{}` (so `messages` is absent) without parsing; otherwise the body
is handed to `JSON.parse`, modelled as the abstract `parse` (with `none`
standing for a thrown parse error). -/
def readJsonBody (parse : String → Option ParsedBody) (rawBody : String) :
    Option ParsedBody :=
  if jsTrim rawBody = "" then some ⟨.absent⟩ else parse rawBody

/-- Outcome of the handler's validation phase: an immediate error response,
or proceeding to routing/forwarding with the message list. -/
inductive EarlyOutcome where
  | respond (status : Nat) (envelope : ErrorEnvelope)
  | proceed (msgs : List Message)
deriving DecidableEq, Repr

/-- The validation phase of `handleChatCompletions` (src/proxy.ts): a body
that fails `JSON.parse` gets 400/"Invalid JSON body"; then
`body.messages ?? []` must be a non-empty array, else
400/"messages is required and must be a non-empty array"; only then does
the handler continue toward routing and the upstream. -/
def handleChatCompletionsEarly (parse : String → Option ParsedBody)
    (rawBody : String) : EarlyOutcome :=
  match readJsonBody parse rawBody with
  | none => .respond 400 ⟨"Invalid JSON body", "invalid_request"⟩
  | some body =>
    match body.messages with
    | .absent =>
      .respond 400 ⟨"messages is required and must be a non-empty array", "invalid_request"⟩
    | .nonArray =>
      .respond 400 ⟨"messages is required and must be a non-empty array", "invalid_request"⟩
    | .list [] =>
      .respond 400 ⟨"messages is required and must be a non-empty array", "invalid_request"⟩
    | .list (m :: rest) => .proceed (m :: rest)

/-! ## Fallback chain (src/proxy.ts, handleChatCompletions) -/

/-- Modelled from the spec: `getFallbackChainFiltered` is imported from
`./router/index.js` in src/proxy.ts but that module's current revision is
not in the sources.  Per §4.3 of the spec it takes the routing tier, the
profile's tier→candidate-list table, the estimated total token count and a
context-window lookup, and keeps — in the tier table's order — the
candidates whose context window is at least the estimated total tokens
(a candidate with no known context window cannot be verified feasible and
is filtered out). -/
def getFallbackChainFiltered (tier : String)
    (tierConfigs : List (String × List String)) (estimatedTotalTokens : Nat)
    (lookup : String → Option Nat) : List String :=
  ((lookupEntry tierConfigs tier).getD []).filter
    (fun m =>
      match lookup m with
      | some w => estimatedTotalTokens ≤ w
      | none => false)

/-- The try-list composition in `handleChatCompletions` (src/proxy.ts):
`fallbackChain.includes(decision.model) ? fallbackChain
 : [decision.model, ...fallbackChain]`. -/
def modelsToTryFor (decisionModel tier : String)
    (tierConfigs : List (String × List String)) (estimatedTotalTokens : Nat)
    (lookup : String → Option Nat) : List String :=
  let fallbackChain := getFallbackChainFiltered tier tierConfigs estimatedTotalTokens lookup
  if decisionModel ∈ fallbackChain then fallbackChain
  else decisionModel :: fallbackChain

/-! ## Retry-with-fallback execution (src/proxy.ts, handleChatCompletions) -/

/-- One upstream attempt's result: a network-level throw, or an HTTP
response with status and body text. -/
inductive UpstreamResult where
  | netErr (msg : String)
  | resp (status : Nat) (body : String)
deriving DecidableEq, Repr

/-- The statuses the chain loop treats as retryable:
`[429, 502, 503, 504].includes(response.status)`. -/
def retryableStatuses : List Nat := [429, 502, 503, 504]

/-- The recorded error message for a failed attempt:
`OpenRouter error (${status}): ${errBody?.error?.message ?? text}` — the
`error.message` extraction from the body text is abstracted as `pm`. -/
def upstreamErrMsg (pm : String → String) (status : Nat) (body : String) : String :=
  "OpenRouter error (" ++ toString status ++ "): " ++ pm body

/-- `JSON.stringify({error:{message:""}})`, the relay body used when the
upstream failure body text is empty (then `JSON.parse` of it threw). -/
def emptyErrorEnvelopeText : String := "\x7b\"error\":\x7b\"message\":\"\"\x7d\x7d"

/-- The body relayed for a non-retryable failure:
`text || JSON.stringify(errBody)`. -/
def relayFailureBody (body : String) : String :=
  if body = "" then emptyErrorEnvelopeText else body

/-- Terminal outcome of the chain loop. -/
inductive ChainOutcome where
  | relayed (status : Nat) (body : String)
  | relayedFailure (status : Nat) (body : String)
  | exhausted (status : Nat) (message : String)
deriving DecidableEq, Repr

/-- Result of running the chain loop: the terminal outcome and the chain
entries actually attempted, in order. -/
structure RunResult where
  outcome : ChainOutcome
  attempted : List String
deriving DecidableEq, Repr

/-- The `for (let i = 0; i < modelsToTry.length; i++)` loop of
`handleChatCompletions` (src/proxy.ts): each entry is forwarded upstream
(`f`); a 2xx response is relayed and the loop ends; a failure with a
retryable status records the error and advances; any other failure status
is relayed verbatim at once; a thrown fetch records the error and
advances; an exhausted chain yields the last recorded status (initially
500) and error message (defaulting to "All fallback models failed"). -/
def runFallback (f : String → UpstreamResult) (pm : String → String) :
    List String → Nat → Option String → RunResult
  | [], lastStatus, lastError =>
    ⟨.exhausted lastStatus (lastError.getD "All fallback models failed"), []⟩
  | m :: rest, lastStatus, _lastError =>
    match f m with
    | .netErr msg =>
      let r := runFallback f pm rest lastStatus (some msg)
      ⟨r.outcome, m :: r.attempted⟩
    | .resp status body =>
      if 200 ≤ status ∧ status ≤ 299 then ⟨.relayed status body, [m]⟩
      else if status ∈ retryableStatuses then
        let r := runFallback f pm rest status (some (upstreamErrMsg pm status body))
        ⟨r.outcome, m :: r.attempted⟩
      else ⟨.relayedFailure status (relayFailureBody body), [m]⟩

/-! ## Claim-comparison definitions

For refinement-style claims, a second definition following the claim's own
words, to be compared with the definition taken from the source. -/

/-- Content extraction as claim C7 words it: for multi-part message content
only the first *text-typed* part is used, and non-text content degrades to
its string form.  (Compare `extractContent`, which only ever examines the
first part.) -/
def claimExtractContent : ContentVal → String
  | .str s => s
  | .arr parts =>
    match parts.find? (fun p => match p with | .textPart _ => true | _ => false) with
    | some (.textPart t) => t.getD ""
    | _ =>
      match parts with
      | .otherPart s :: _ => s
      | _ => ""
  | .other => ""

/-- The sequence of contents of the `system`-role messages, in forward
order (used to characterize `extractSystemAcc`). -/
def systemContents (messages : List Message) : List String :=
  (messages.filter (fun m => jsToLower (m.role.getD "") = "system")).map
    (fun m => extractContent m.content)

/-- One accumulation step of the system-prompt concatenation:
`(acc ? acc + "\n" + content : content).trim() || undefined`. -/
def systemFoldStep (acc : Option String) (content : String) : Option String :=
  let s := jsTrim (match acc with
    | some sp => sp ++ "\n" ++ content
    | none => content)
  if s = "" then none else some s

/-- The system prompt as a left fold of `systemFoldStep` over the system
message contents. -/
def systemFold (contents : List String) : Option String :=
  contents.foldl systemFoldStep none

/-- A tier table exercising the try-list composition for C1: the routed
model appears in the tier chain behind another feasible candidate. -/
def c1TierConfigs : List (String × List String) :=
  [("balanced", ["x-ai/grok-3", "anthropic/claude-sonnet-4-5"])]

/-! ## Helper lemmas -/

theorem lookupEntry_mem {α : Type} {l : List (String × α)} {k : String} {v : α}
    (h : lookupEntry l k = some v) : (k, v) ∈ l := by
  induction l with
  | nil => simp [lookupEntry] at h
  | cons p rest ih =>
    obtain ⟨k1, v1⟩ := p
    by_cases hk : k1 = k
    · subst hk
      simp [lookupEntry] at h
      subst h
      exact List.mem_cons_self _ _
    · simp [lookupEntry, hk] at h
      exact List.mem_cons_of_mem _ (ih h)

theorem savings_max_le_one {b c : ℚ} (hb : 0 < b) (hc : 0 ≤ c) :
    max 0 ((b - c) / b) ≤ 1 :=
  max_le (by norm_num) ((div_le_one hb).mpr (by linarith))

/-! ## Claim theorems -/

/-- C5 counterexample: with no credential configured at all, the
`/v1/chat/completions` gate rejects with status 400 but an envelope whose
`type` is `invalid_request`, not `authentication_error` as the claim
states. -/
theorem c5_counterexample :
    chatCompletionsGate none none =
      .reject 400 ⟨"OpenRouter API key required. Set OPENROUTER_API_KEY.", "invalid_request"⟩ ∧
    ("invalid_request" : String) ≠ "authentication_error" :=
  ⟨by decide, by decide⟩

/-- C5 (amended): every POST to /v1/chat/completions made while no
non-empty API credential is configured (environment and option both trim
to empty) is rejected with status 400 and a structured error envelope
whose type discriminator is `invalid_request`, and the request is never
forwarded upstream and never retried. -/
theorem c5_amended (envKey optKey : Option String)
    (h : jsTrim (envKey.getD (optKey.getD "")) = "") :
    chatCompletionsGate envKey optKey =
      .reject 400 ⟨"OpenRouter API key required. Set OPENROUTER_API_KEY.", "invalid_request"⟩ := by
  simp [chatCompletionsGate, h]

theorem c5_amended_witness :
    jsTrim ((none : Option String).getD ((some "   ").getD "")) = "" ∧
    chatCompletionsGate none (some "   ") =
      .reject 400 ⟨"OpenRouter API key required. Set OPENROUTER_API_KEY.", "invalid_request"⟩ :=
  ⟨by decide, c5_amended none (some "   ") (by decide)⟩

/-- C10: a POST body that is empty or whitespace-only parses to an empty
object instead of throwing, so the handler responds 400 with the
`messages is required` envelope of type `invalid_request` (not the
"Invalid JSON body" branch), and never proceeds toward the upstream. -/
theorem c10_blank_body (parse : String → Option ParsedBody) (rawBody : String)
    (h : jsTrim rawBody = "") :
    handleChatCompletionsEarly parse rawBody =
      .respond 400
        ⟨"messages is required and must be a non-empty array", "invalid_request"⟩ := by
  simp [handleChatCompletionsEarly, readJsonBody, h]

theorem c10_blank_body_witness :
    jsTrim "  \n  " = "" ∧
    handleChatCompletionsEarly (fun _ => none) "  \n  " =
      .respond 400
        ⟨"messages is required and must be a non-empty array", "invalid_request"⟩ :=
  ⟨by decide, c10_blank_body (fun _ => none) "  \n  " (by decide)⟩

/-- C1 counterexample: with the routed model catalog-known but sitting
behind another feasible candidate in the filtered tier chain, the try-list
starts with that other candidate, not with the routed model, refuting the
claim's "its first entry is the routed model whenever that model is
catalog-known". -/
theorem c1_counterexample :
    "anthropic/claude-sonnet-4-5" ∈ OPENROUTER_MODELS.map (·.id) ∧
    (modelsToTryFor "anthropic/claude-sonnet-4-5" "balanced" c1TierConfigs 1000
        getModelContextWindow).head? = some "x-ai/grok-3" ∧
    ("x-ai/grok-3" : String) ≠ "anthropic/claude-sonnet-4-5" :=
  ⟨by decide, by decide, by decide⟩

/-- C1 (amended): for every request routed via the "auto" or "eco"
profile, the try-list is never empty and always contains the routed model;
its first entry is the routed model whenever the filtered chain does not
already contain it (in particular under total filtering failure), and when
the chain does contain it the chain's own head comes first. -/
theorem c1_amended (decisionModel tier : String)
    (tierConfigs : List (String × List String)) (estimatedTotalTokens : Nat)
    (lookup : String → Option Nat) :
    modelsToTryFor decisionModel tier tierConfigs estimatedTotalTokens lookup ≠ [] ∧
    decisionModel ∈ modelsToTryFor decisionModel tier tierConfigs estimatedTotalTokens lookup ∧
    (modelsToTryFor decisionModel tier tierConfigs estimatedTotalTokens lookup).head? =
      some
        (if decisionModel ∈ getFallbackChainFiltered tier tierConfigs estimatedTotalTokens lookup
          then (getFallbackChainFiltered tier tierConfigs estimatedTotalTokens lookup).headD
            decisionModel
          else decisionModel) := by
  by_cases h :
      decisionModel ∈ getFallbackChainFiltered tier tierConfigs estimatedTotalTokens lookup
  · have hne : getFallbackChainFiltered tier tierConfigs estimatedTotalTokens lookup ≠ [] :=
      List.ne_nil_of_mem h
    refine ⟨by simp [modelsToTryFor, h, hne], by simp [modelsToTryFor, h], ?_⟩
    simp only [modelsToTryFor, if_pos h]
    cases hc : getFallbackChainFiltered tier tierConfigs estimatedTotalTokens lookup with
    | nil => exact absurd hc hne
    | cons a t => simp
  · refine ⟨by simp [modelsToTryFor, h], by simp [modelsToTryFor, h], by simp [modelsToTryFor, h]⟩

/-- C6 counterexample: the routing system prompt enumerates
`anthropic/claude-opus-4-5` (input price 15.0) immediately before
`anthropic/claude-haiku-4-5` (input price 1.0), so the enumeration is not
in ascending price order. -/
theorem c6_counterexample :
    (routingModelLines.get? 5).map (·.id) = some "anthropic/claude-opus-4-5" ∧
    (routingModelLines.get? 6).map (·.id) = some "anthropic/claude-haiku-4-5" ∧
    ¬ List.Chain' (fun a b => a.inputPrice ≤ b.inputPrice) routingModelLines := by
  refine ⟨by decide, by decide, fun h => ?_⟩
  have h56 := List.chain'_iff_get.mp h 5 (by decide)
  have h15 : (15.0 : ℚ) ≤ (1.0 : ℚ) := h56
  norm_num at h15

/-- C6 (amended): on every cache miss, the routing request's system
instruction enumerates all selectable models — exactly the catalog minus
the sentinel "auto", in catalog order rather than ascending price order —
each with a non-empty one-line capability description and its per-token
cost. -/
theorem c6_amended :
    routingModelLines.map (·.id) = (OPENROUTER_MODELS.map (·.id)).filter (· ≠ "auto") ∧
    routingModelLines.all (fun l => !(l.desc == "")) = true := by
  exact ⟨by decide, by decide⟩

/-- C8: `calculateModelCost` returns savings 0 for the "premium" profile;
for any other profile, with nonnegative token counts and a pricing table
of nonnegative prices, a positive baseline cost yields
`savings = max 0 ((baseline - estimate)/baseline) ∈ [0, 1]`, a
non-positive baseline yields savings 0, and an unknown model defaults its
prices to 0 (cost estimate 0) rather than failing. -/
theorem c8_calculateModelCost_savings (model : String)
    (modelPricing : List (String × ModelPricing)) (estIn maxOut : ℚ)
    (routingProfile : Option String)
    (hp : ∀ p ∈ modelPricing, 0 ≤ p.2.inputPrice ∧ 0 ≤ p.2.outputPrice)
    (hin : 0 ≤ estIn) (hout : 0 ≤ maxOut) :
    (routingProfile = some "premium" →
      (calculateModelCost model modelPricing estIn maxOut routingProfile).savings = 0) ∧
    (routingProfile ≠ some "premium" →
      (0 < (calculateModelCost model modelPricing estIn maxOut routingProfile).baselineCost →
        (calculateModelCost model modelPricing estIn maxOut routingProfile).savings =
          max 0
            (((calculateModelCost model modelPricing estIn maxOut routingProfile).baselineCost -
              (calculateModelCost model modelPricing estIn maxOut routingProfile).costEstimate) /
              (calculateModelCost model modelPricing estIn maxOut routingProfile).baselineCost) ∧
        0 ≤ (calculateModelCost model modelPricing estIn maxOut routingProfile).savings ∧
        (calculateModelCost model modelPricing estIn maxOut routingProfile).savings ≤ 1) ∧
      (¬ 0 < (calculateModelCost model modelPricing estIn maxOut routingProfile).baselineCost →
        (calculateModelCost model modelPricing estIn maxOut routingProfile).savings = 0)) ∧
    (lookupEntry modelPricing model = none →
      (calculateModelCost model modelPricing estIn maxOut routingProfile).costEstimate = 0) := by
  have hip : 0 ≤ ((lookupEntry modelPricing model).map (·.inputPrice)).getD 0 := by
    cases hl : lookupEntry modelPricing model with
    | none => simp
    | some pr => simpa using (hp _ (lookupEntry_mem hl)).1
  have hop : 0 ≤ ((lookupEntry modelPricing model).map (·.outputPrice)).getD 0 := by
    cases hl : lookupEntry modelPricing model with
    | none => simp
    | some pr => simpa using (hp _ (lookupEntry_mem hl)).2
  have hc : 0 ≤ (calculateModelCost model modelPricing estIn maxOut routingProfile).costEstimate := by
    simp only [calculateModelCost]
    exact add_nonneg
      (mul_nonneg (div_nonneg hin (by norm_num)) hip)
      (mul_nonneg (div_nonneg hout (by norm_num)) hop)
  refine ⟨fun hprof => ?_, fun hprof => ⟨fun hbpos => ?_, fun hbneg => ?_⟩, fun hnone => ?_⟩
  · simp [calculateModelCost, hprof]
  · refine ⟨?_, ?_, ?_⟩
    · simp only [calculateModelCost] at hbpos ⊢
      simp [hprof, hbpos]
    · simp only [calculateModelCost] at hbpos ⊢
      simp [hprof, hbpos, le_max_left]
    · have := savings_max_le_one hbpos hc
      simp only [calculateModelCost] at hbpos this ⊢
      simpa [hprof, hbpos] using this
  · simp only [calculateModelCost] at hbneg ⊢
    simp [hprof, hbneg]
  · simp [calculateModelCost, hnone]

theorem c8_witness :
    (∀ p ∈ [("a", (⟨1, 2⟩ : ModelPricing)),
        ("anthropic/claude-opus-4-5", (⟨15.0, 75.0⟩ : ModelPricing))],
      0 ≤ p.2.inputPrice ∧ 0 ≤ p.2.outputPrice) ∧
    (0 : ℚ) ≤ 1000 ∧ (0 : ℚ) ≤ 4096 ∧
    ((some "eco" : Option String) = some "premium" →
      (calculateModelCost "a"
        [("a", ⟨1, 2⟩), ("anthropic/claude-opus-4-5", ⟨15.0, 75.0⟩)]
        1000 4096 (some "eco")).savings = 0) ∧
    ((some "eco" : Option String) ≠ some "premium" →
      (0 < (calculateModelCost "a"
          [("a", ⟨1, 2⟩), ("anthropic/claude-opus-4-5", ⟨15.0, 75.0⟩)]
          1000 4096 (some "eco")).baselineCost →
        (calculateModelCost "a"
          [("a", ⟨1, 2⟩), ("anthropic/claude-opus-4-5", ⟨15.0, 75.0⟩)]
          1000 4096 (some "eco")).savings =
          max 0
            (((calculateModelCost "a"
                [("a", ⟨1, 2⟩), ("anthropic/claude-opus-4-5", ⟨15.0, 75.0⟩)]
                1000 4096 (some "eco")).baselineCost -
              (calculateModelCost "a"
                [("a", ⟨1, 2⟩), ("anthropic/claude-opus-4-5", ⟨15.0, 75.0⟩)]
                1000 4096 (some "eco")).costEstimate) /
              (calculateModelCost "a"
                [("a", ⟨1, 2⟩), ("anthropic/claude-opus-4-5", ⟨15.0, 75.0⟩)]
                1000 4096 (some "eco")).baselineCost) ∧
        0 ≤ (calculateModelCost "a"
          [("a", ⟨1, 2⟩), ("anthropic/claude-opus-4-5", ⟨15.0, 75.0⟩)]
          1000 4096 (some "eco")).savings ∧
        (calculateModelCost "a"
          [("a", ⟨1, 2⟩), ("anthropic/claude-opus-4-5", ⟨15.0, 75.0⟩)]
          1000 4096 (some "eco")).savings ≤ 1) ∧
      (¬ 0 < (calculateModelCost "a"
          [("a", ⟨1, 2⟩), ("anthropic/claude-opus-4-5", ⟨15.0, 75.0⟩)]
          1000 4096 (some "eco")).baselineCost →
        (calculateModelCost "a"
          [("a", ⟨1, 2⟩), ("anthropic/claude-opus-4-5", ⟨15.0, 75.0⟩)]
          1000 4096 (some "eco")).savings = 0)) ∧
    (lookupEntry [("a", (⟨1, 2⟩ : ModelPricing)),
        ("anthropic/claude-opus-4-5", ⟨15.0, 75.0⟩)] "a" = none →
      (calculateModelCost "a"
        [("a", ⟨1, 2⟩), ("anthropic/claude-opus-4-5", ⟨15.0, 75.0⟩)]
        1000 4096 (some "eco")).costEstimate = 0) := by
  have hp : ∀ p ∈ [("a", (⟨1, 2⟩ : ModelPricing)),
      ("anthropic/claude-opus-4-5", (⟨15.0, 75.0⟩ : ModelPricing))],
      0 ≤ p.2.inputPrice ∧ 0 ≤ p.2.outputPrice := by
    intro p hpp
    rcases List.mem_cons.mp hpp with h | h
    · rw [h]
      norm_num
    · rcases List.mem_cons.mp h with h2 | h2
      · rw [h2]
        norm_num
      · simp at h2
  exact ⟨hp, by norm_num, by norm_num,
    c8_calculateModelCost_savings "a"
      [("a", ⟨1, 2⟩), ("anthropic/claude-opus-4-5", ⟨15.0, 75.0⟩)]
      1000 4096 (some "eco") hp (by norm_num) (by norm_num)⟩

theorem runFallback_attempted_head (f : String → UpstreamResult) (pm : String → String)
    (m : String) (rest : List String) (s : Nat) (e : Option String) :
    ∃ t, (runFallback f pm (m :: rest) s e).attempted = m :: t := by
  cases hf : f m with
  | netErr msg =>
    exact ⟨(runFallback f pm rest s (some msg)).attempted, by simp [runFallback, hf]⟩
  | resp status body =>
    by_cases h1 : 200 ≤ status ∧ status ≤ 299
    · exact ⟨[], by simp [runFallback, hf, h1]⟩
    · by_cases h2 : status ∈ retryableStatuses
      · exact ⟨(runFallback f pm rest status (some (upstreamErrMsg pm status body))).attempted,
          by simp [runFallback, hf, h1, h2]⟩
      · exact ⟨[], by simp [runFallback, hf, h1, h2]⟩

/-- C2: during fallback execution, an upstream failure with a status in
{429, 502, 503, 504} on an attempt records the error and moves on to the
next chain entry (which is then attempted) while relaying nothing of this
attempt; a failure with any other status is relayed verbatim immediately
and no further chain entry is attempted. -/
theorem c2_retry_boundary (f : String → UpstreamResult) (pm : String → String)
    (m : String) (rest : List String) (lastStatus : Nat) (lastError : Option String)
    (status : Nat) (body : String)
    (hresp : f m = .resp status body) (hnotok : ¬(200 ≤ status ∧ status ≤ 299)) :
    (status ∈ retryableStatuses →
      runFallback f pm (m :: rest) lastStatus lastError =
        ⟨(runFallback f pm rest status (some (upstreamErrMsg pm status body))).outcome,
          m :: (runFallback f pm rest status
            (some (upstreamErrMsg pm status body))).attempted⟩ ∧
      ∀ m2 rest2, rest = m2 :: rest2 →
        m2 ∈ (runFallback f pm (m :: rest) lastStatus lastError).attempted) ∧
    (status ∉ retryableStatuses →
      runFallback f pm (m :: rest) lastStatus lastError =
        ⟨.relayedFailure status (relayFailureBody body), [m]⟩) := by
  constructor
  · intro hmem
    have heq : runFallback f pm (m :: rest) lastStatus lastError =
        ⟨(runFallback f pm rest status (some (upstreamErrMsg pm status body))).outcome,
          m :: (runFallback f pm rest status
            (some (upstreamErrMsg pm status body))).attempted⟩ := by
      simp [runFallback, hresp, hnotok, hmem]
    refine ⟨heq, ?_⟩
    intro m2 rest2 hrest
    subst hrest
    obtain ⟨t, ht⟩ := runFallback_attempted_head f pm m2 rest2 status
      (some (upstreamErrMsg pm status body))
    rw [heq]
    simp [ht]
  · intro hmem
    simp [runFallback, hresp, hnotok, hmem]

theorem c2_witness :
    runFallback (fun x => if x = "a" then UpstreamResult.resp 503 "busy" else .resp 200 "ok")
        (fun s => s) ["a", "b"] 500 none =
      ⟨(runFallback (fun x => if x = "a" then UpstreamResult.resp 503 "busy" else .resp 200 "ok")
          (fun s => s) ["b"] 503 (some (upstreamErrMsg (fun s => s) 503 "busy"))).outcome,
        "a" :: (runFallback
          (fun x => if x = "a" then UpstreamResult.resp 503 "busy" else .resp 200 "ok")
          (fun s => s) ["b"] 503 (some (upstreamErrMsg (fun s => s) 503 "busy"))).attempted⟩ ∧
    "b" ∈ (runFallback (fun x => if x = "a" then UpstreamResult.resp 503 "busy" else .resp 200 "ok")
        (fun s => s) ["a", "b"] 500 none).attempted := by
  have h := (c2_retry_boundary
      (fun x => if x = "a" then UpstreamResult.resp 503 "busy" else .resp 200 "ok")
      (fun s => s) "a" ["b"] 500 none 503 "busy" (by decide) (by decide)).1 (by decide)
  exact ⟨h.1, h.2 "b" [] rfl⟩

/-! ### C9: cache-key determinism lemmas -/

theorem lastUserIdx_none {l : List Message} (h : ∀ m ∈ l, m.role ≠ some "user") :
    lastUserIdx l = none := by
  induction l with
  | nil => rfl
  | cons m rest ih =>
    have hm := h m (List.mem_cons_self _ _)
    have hrest : lastUserIdx rest = none :=
      ih (fun x hx => h x (List.mem_cons_of_mem _ hx))
    simp [lastUserIdx, hrest, hm]

theorem lastUserIdx_append {l1 l2 : List Message} (h : lastUserIdx l2 = none) :
    lastUserIdx (l1 ++ l2) = lastUserIdx l1 := by
  induction l1 with
  | nil => simpa using h
  | cons m rest ih => simp [lastUserIdx, ih]

theorem lastUserIdx_getLast {l : List Message} {last : Message}
    (hl : l.getLast? = some last) (hu : last.role = some "user") :
    lastUserIdx l = some (l.length - 1) := by
  induction l with
  | nil => simp at hl
  | cons m rest ih =>
    rcases rest with _ | ⟨r, rs⟩
    · have hm : m = last := by simpa [List.getLast?] using hl
      subst hm
      simp [lastUserIdx, hu]
    · have hl2 : (r :: rs).getLast? = some last := by
        simpa [List.getLast?_cons_cons] using hl
      have h1 : lastUserIdx (r :: rs) = some rs.length := by
        simpa using ih hl2
      show (match lastUserIdx (r :: rs) with
        | some i => some (i + 1)
        | none => if m.role = some "user" then some 0 else none) =
        some ((m :: r :: rs).length - 1)
      rw [h1]
      rfl

/-- C9: `computeCacheKey` is a pure function of the conversation prefix
ending at — and including — the last user-role message: two message lists
sharing that prefix (whatever non-user messages follow it) produce equal
cache keys, for every serialize-and-hash function. -/
theorem c9_cache_key_determinism (hash : List Message → String)
    (pre suf1 suf2 : List Message) (last : Message)
    (hlast : pre.getLast? = some last) (huser : last.role = some "user")
    (h1 : ∀ m ∈ suf1, m.role ≠ some "user")
    (h2 : ∀ m ∈ suf2, m.role ≠ some "user") :
    computeCacheKey hash (pre ++ suf1) = computeCacheKey hash (pre ++ suf2) := by
  have hkey : ∀ suf, (∀ m ∈ suf, m.role ≠ some "user") →
      computeCacheKeyInput (pre ++ suf) = pre := by
    intro suf hs
    have hidx : lastUserIdx (pre ++ suf) = some (pre.length - 1) := by
      rw [lastUserIdx_append (lastUserIdx_none hs)]
      exact lastUserIdx_getLast hlast huser
    have hne : pre ≠ [] := by
      rintro rfl
      simp at hlast
    have hlen : pre.length - 1 + 1 = pre.length :=
      Nat.sub_add_cancel (List.length_pos.mpr hne)
    unfold computeCacheKeyInput
    rw [hidx]
    show List.take (pre.length - 1 + 1) (pre ++ suf) = pre
    rw [hlen, List.take_left]
  unfold computeCacheKey
  rw [hkey suf1 h1, hkey suf2 h2]

theorem c9_witness :
    ([⟨some "system", .str "s"⟩, ⟨some "user", .str "q"⟩] : List Message).getLast? =
      some ⟨some "user", .str "q"⟩ ∧
    (⟨some "user", ContentVal.str "q"⟩ : Message).role = some "user" ∧
    (∀ m ∈ [(⟨some "assistant", .str "a"⟩ : Message)], m.role ≠ some "user") ∧
    computeCacheKey (fun l => toString l.length)
        ([⟨some "system", .str "s"⟩, ⟨some "user", .str "q"⟩] ++
          [⟨some "assistant", .str "a"⟩]) =
      computeCacheKey (fun l => toString l.length)
        ([⟨some "system", .str "s"⟩, ⟨some "user", .str "q"⟩] ++ []) :=
  ⟨by decide, by decide, by decide,
    c9_cache_key_determinism (fun l => toString l.length)
      [⟨some "system", .str "s"⟩, ⟨some "user", .str "q"⟩]
      [⟨some "assistant", .str "a"⟩] [] ⟨some "user", .str "q"⟩
      (by decide) (by decide) (by decide) (by decide)⟩

/-! ### C3/C4: routing oracle client -/

theorem routeWithAIOracle_called (cacheKey : String) (serLen : List Message → Nat)
    (messages : List Message) (cache : Cache) (now : Int)
    (oracle : List Message → OracleResponse) (config : AIRoutingConfig) :
    (routeWithAIOracle cacheKey serLen messages cache now oracle config).oracleCalled = true := by
  cases hor : oracle (truncateMessages serLen config.promptTruncationChars messages) with
  | netErr msg => simp [routeWithAIOracle, hor]
  | resp status bodyText content =>
    by_cases h1 : 200 ≤ status ∧ status ≤ 299
    · by_cases h2 : isValidModelId (firstLineTrim (content.getD "")) = true
      · simp [routeWithAIOracle, hor, h1, h2]
      · simp [routeWithAIOracle, hor, h1, h2]
    · simp [routeWithAIOracle, hor, h1]

/-- C3: on a cache hit whose entry expires strictly in the future,
`routeWithAI` returns the stored model id with the cache untouched and no
oracle call; when the entry's expiry is at or before now — or there is no
entry — the oracle is called. -/
theorem c3_cache_ttl (hash : List Message → String) (serLen : List Message → Nat)
    (messages : List Message) (cache : Cache) (now : Int)
    (oracle : List Message → OracleResponse) (config : AIRoutingConfig) :
    (∀ entry, cacheGet cache (computeCacheKey hash messages) = some entry →
      (now < entry.expiresAt →
        routeWithAI hash serLen messages cache now oracle config =
          ⟨.ok entry.modelId, cache, false⟩) ∧
      (entry.expiresAt ≤ now →
        (routeWithAI hash serLen messages cache now oracle config).oracleCalled = true)) ∧
    (cacheGet cache (computeCacheKey hash messages) = none →
      (routeWithAI hash serLen messages cache now oracle config).oracleCalled = true) := by
  constructor
  · intro entry hget
    constructor
    · intro hlt
      simp [routeWithAI, hget, hlt]
    · intro hle
      have hnlt : ¬ now < entry.expiresAt := not_lt.mpr hle
      simp [routeWithAI, hget, hnlt, routeWithAIOracle_called]
  · intro hget
    simp [routeWithAI, hget, routeWithAIOracle_called]

theorem c3_witness :
    cacheGet [("K", ⟨"m", 100⟩)]
        (computeCacheKey (fun _ => "K") [⟨some "user", .str "hi"⟩]) = some ⟨"m", 100⟩ ∧
    (50 : Int) < 100 ∧
    routeWithAI (fun _ => "K") (fun l => l.length) [⟨some "user", .str "hi"⟩]
        [("K", ⟨"m", 100⟩)] 50 (fun _ => .netErr "down") ⟨"g", 20, 300000, 8000⟩ =
      ⟨.ok "m", [("K", ⟨"m", 100⟩)], false⟩ :=
  ⟨by decide, by decide,
    ((c3_cache_ttl (fun _ => "K") (fun l => l.length) [⟨some "user", .str "hi"⟩]
        [("K", ⟨"m", 100⟩)] 50 (fun _ => .netErr "down") ⟨"g", 20, 300000, 8000⟩).1
      ⟨"m", 100⟩ (by decide)).1 (by decide)⟩

/-- C4: on a cache miss, `routeWithAI` returns the trimmed first line of
the oracle's reply exactly when the reply is a 2xx response whose first
line validates against the catalog (excluding "auto"), and then — and only
then — writes it to the turn cache with expiry `now + cacheTtlMs`; a
network failure, a non-success status, or an unrecognized identifier
yields a `RoutingError` with the cache left unchanged. -/
theorem c4_oracle_validation (hash : List Message → String) (serLen : List Message → Nat)
    (messages : List Message) (cache : Cache) (now : Int)
    (oracle : List Message → OracleResponse) (config : AIRoutingConfig)
    (hmiss : ∀ entry, cacheGet cache (computeCacheKey hash messages) = some entry →
      entry.expiresAt ≤ now) :
    (∀ msg,
      oracle (truncateMessages serLen config.promptTruncationChars messages) = .netErr msg →
      routeWithAI hash serLen messages cache now oracle config =
        ⟨.error ⟨"Routing agent call failed: " ++ msg⟩, cache, true⟩) ∧
    (∀ status bodyText content,
      oracle (truncateMessages serLen config.promptTruncationChars messages) =
        .resp status bodyText content →
      ¬(200 ≤ status ∧ status ≤ 299) →
      routeWithAI hash serLen messages cache now oracle config =
        ⟨.error ⟨"Routing agent call failed: HTTP " ++ toString status ++ " — " ++ bodyText⟩,
          cache, true⟩) ∧
    (∀ status bodyText content,
      oracle (truncateMessages serLen config.promptTruncationChars messages) =
        .resp status bodyText content →
      (200 ≤ status ∧ status ≤ 299) →
      (isValidModelId (firstLineTrim (content.getD "")) = true →
        routeWithAI hash serLen messages cache now oracle config =
          ⟨.ok (firstLineTrim (content.getD "")),
            cacheSet cache (computeCacheKey hash messages)
              ⟨firstLineTrim (content.getD ""), now + config.cacheTtlMs⟩, true⟩) ∧
      (isValidModelId (firstLineTrim (content.getD "")) = false →
        routeWithAI hash serLen messages cache now oracle config =
          ⟨.error ⟨"Routing agent returned unknown model: \"" ++
            firstLineTrim (content.getD "") ++ "\""⟩, cache, true⟩)) := by
  have hred : routeWithAI hash serLen messages cache now oracle config =
      routeWithAIOracle (computeCacheKey hash messages) serLen messages cache now
        oracle config := by
    unfold routeWithAI
    cases hget : cacheGet cache (computeCacheKey hash messages) with
    | none => simp [hget]
    | some entry =>
      have hnlt : ¬ now < entry.expiresAt := not_lt.mpr (hmiss entry hget)
      simp [hget, hnlt]
  refine ⟨?_, ?_, ?_⟩
  · intro msg horacle
    rw [hred]
    simp [routeWithAIOracle, horacle]
  · intro status bodyText content horacle hnot
    rw [hred]
    simp [routeWithAIOracle, horacle, hnot]
  · intro status bodyText content horacle hok
    constructor
    · intro hvalid
      rw [hred]
      simp [routeWithAIOracle, horacle, hok, hvalid]
    · intro hinvalid
      rw [hred]
      simp [routeWithAIOracle, horacle, hok, hinvalid]

theorem c4_witness :
    (∀ entry, cacheGet []
        (computeCacheKey (fun _ => "K") [⟨some "user", .str "hi"⟩]) = some entry →
      entry.expiresAt ≤ (50 : Int)) ∧
    isValidModelId
      (firstLineTrim ((some " anthropic/claude-opus-4-5 \nextra").getD "")) = true ∧
    routeWithAI (fun _ => "K") (fun l => l.length) [⟨some "user", .str "hi"⟩] [] 50
        (fun _ => .resp 200 "body" (some " anthropic/claude-opus-4-5 \nextra"))
        ⟨"g", 20, 300000, 8000⟩ =
      ⟨.ok "anthropic/claude-opus-4-5",
        [("K", ⟨"anthropic/claude-opus-4-5", 300050⟩)], true⟩ := by
  have hmiss : ∀ entry, cacheGet []
      (computeCacheKey (fun _ => "K") [⟨some "user", .str "hi"⟩]) = some entry →
      entry.expiresAt ≤ (50 : Int) := by
    intro e he
    simp [cacheGet, lookupEntry] at he
  refine ⟨hmiss, by decide, ?_⟩
  have h := ((c4_oracle_validation (fun _ => "K") (fun l => l.length)
      [⟨some "user", .str "hi"⟩] [] 50
      (fun _ => .resp 200 "body" (some " anthropic/claude-opus-4-5 \nextra"))
      ⟨"g", 20, 300000, 8000⟩ hmiss).2.2 200 "body"
      (some " anthropic/claude-opus-4-5 \nextra") rfl (by decide)).1 (by decide)
  exact h

/-! ### C7: prompt extraction lemmas -/

theorem extractSystemAcc_eq_fold (msgs : List Message) :
    ∀ acc, extractSystemAcc acc msgs = (systemContents msgs).foldl systemFoldStep acc := by
  induction msgs with
  | nil => intro acc; simp [extractSystemAcc, systemContents]
  | cons m rest ih =>
    intro acc
    by_cases h : jsToLower (m.role.getD "") = "system"
    · have hstep : extractSystemAcc acc (m :: rest) =
          extractSystemAcc (systemFoldStep acc (extractContent m.content)) rest := by
        simp [extractSystemAcc, h, systemFoldStep]
      rw [hstep, ih]
      simp [systemContents, h]
    · have hstep : extractSystemAcc acc (m :: rest) = extractSystemAcc acc rest := by
        simp [extractSystemAcc, h]
      rw [hstep, ih]
      simp [systemContents, h]

theorem find?_append_orElse {α : Type} (l1 l2 : List α) (p : α → Bool) :
    (l1 ++ l2).find? p = ((l1.find? p).orElse (fun _ => l2.find? p)) := by
  induction l1 with
  | nil => simp
  | cons a rest ih =>
    cases h : p a <;> simp [List.find?, h, ih]

theorem lastUserMsg_eq_reverse_find (msgs : List Message) :
    lastUserMsg msgs =
      msgs.reverse.find? (fun m => jsToLower (m.role.getD "") = "user") := by
  induction msgs with
  | nil => rfl
  | cons m rest ih =>
    rw [List.reverse_cons, find?_append_orElse, ← ih]
    cases hr : lastUserMsg rest with
    | some r => simp [lastUserMsg, hr]
    | none =>
      by_cases hm : jsToLower (m.role.getD "") = "user"
      · simp [lastUserMsg, hr, hm, List.find?]
      · simp [lastUserMsg, hr, hm, List.find?]

/-- C7 counterexample: for a user message whose multi-part content starts
with a non-text part followed by a text part, `extractPrompts` uses the
string form of the *first* part, not the first text-typed part's text as
the claim states. -/
theorem c7_counterexample :
    (extractPrompts
        [⟨some "user", .arr [.otherPart "[object Object]", .textPart (some "hi")]⟩]).prompt =
      "[object Object]" ∧
    jsTrim (claimExtractContent
        (.arr [.otherPart "[object Object]", .textPart (some "hi")])) = "hi" ∧
    ("[object Object]" : String) ≠ "hi" :=
  ⟨by decide, by decide, by decide⟩

/-- C7 (amended): prompt extraction selects as the primary prompt the
trimmed content of the last user-role message (the backward search equals
a find over the reversed list), and folds the contents of the system-role
messages in forward order, joining with newlines and trimming each
accumulated result; multi-part content uses only its *first* part — its
text when that part is text-typed, otherwise its string form — and
non-text, non-array content degrades to the empty string. -/
theorem c7_amended (messages : List Message) :
    extractPrompts messages =
      ⟨(match messages.reverse.find? (fun m => jsToLower (m.role.getD "") = "user") with
        | some m => jsTrim (extractContent m.content)
        | none => ""),
        systemFold (systemContents messages)⟩ := by
  unfold extractPrompts systemFold
  rw [extractSystemAcc_eq_fold, lastUserMsg_eq_reverse_find]

end ClawdRouter

